import Mathlib

/-!
Verification of the DXBC shader-debug interpreter
(`renderdoc/driver/shaders/dxbc/dxbc_debug.cpp`).

Machine integers are modelled as `Nat` restricted by explicit `% 2^32`
(respectively `% 2^64`) where the C++ code can wrap.  IEEE-754 `float` and
`double` values are modelled by their raw bit patterns; the comparison,
classification (NaN / infinity), negation and denormal-flush operations used by
the source are implemented exactly on those bit patterns (for non-NaN operands
the IEEE ordering coincides with the sign-magnitude integer ordering of the
patterns, with `-0 == +0`).  Genuine float arithmetic (addition) appears in the
source only inside helpers whose float branches no claim exercises; it is kept
as an explicit parameter (`FloatOps`) so every theorem holds for any
interpretation of it, including the true IEEE one.
-/

namespace ShaderDebug

/-- Bit layout of an IEEE-754 binary floating point format:
`man` mantissa bits, `exp` exponent bits (plus one sign bit). -/
structure FPFormat where
  exp : Nat
  man : Nat
deriving DecidableEq, Repr

/-- binary32 layout used by `float` in the source. -/
def f32fmt : FPFormat := ⟨8, 23⟩

/-- binary64 layout used by `double` in the source. -/
def f64fmt : FPFormat := ⟨11, 52⟩

/-- Total width in bits of a format. -/
def FPFormat.width (fmt : FPFormat) : Nat := fmt.exp + fmt.man + 1

/-- `_isnan` on a bit pattern: exponent all ones and nonzero mantissa. -/
def fp_isnan (fmt : FPFormat) (x : Nat) : Bool :=
  ((x >>> fmt.man) &&& (2 ^ fmt.exp - 1) = 2 ^ fmt.exp - 1) ∧
    x &&& (2 ^ fmt.man - 1) ≠ 0

/-- `!_finite` on a bit pattern: exponent all ones (infinity or NaN). -/
def fp_infnan (fmt : FPFormat) (x : Nat) : Bool :=
  (x >>> fmt.man) &&& (2 ^ fmt.exp - 1) = 2 ^ fmt.exp - 1

/-- Magnitude bits of a pattern (everything below the sign bit). -/
def fp_mag (fmt : FPFormat) (x : Nat) : Nat :=
  x &&& (2 ^ (fmt.exp + fmt.man) - 1)

/-- Sign bit of a pattern. -/
def fp_signbit (fmt : FPFormat) (x : Nat) : Bool :=
  (x >>> (fmt.exp + fmt.man)) % 2 = 1

/-- Order key of a non-NaN pattern: for IEEE floats the numeric order of
non-NaN values is exactly the order of `±magnitude` (with `-0` and `+0` both
mapping to `0`). -/
def fp_toOrd (fmt : FPFormat) (x : Nat) : Int :=
  if fp_signbit fmt x then -(fp_mag fmt x : Int) else (fp_mag fmt x : Int)

/-- IEEE `<` on bit patterns (false whenever either operand is NaN). -/
def fp_lt (fmt : FPFormat) (a b : Nat) : Bool :=
  !fp_isnan fmt a && !fp_isnan fmt b && fp_toOrd fmt a < fp_toOrd fmt b

/-- IEEE `>=` on bit patterns (false whenever either operand is NaN). -/
def fp_ge (fmt : FPFormat) (a b : Nat) : Bool :=
  !fp_isnan fmt a && !fp_isnan fmt b && fp_toOrd fmt a ≥ fp_toOrd fmt b

/-- C++ unary `-` on a float: flips the sign bit (IEEE `negate`). -/
def fp_neg (fmt : FPFormat) (x : Nat) : Nat :=
  x ^^^ 2 ^ (fmt.exp + fmt.man)

/-- Bit pattern of `1.0f`. -/
def f32_one : Nat := 0x3F800000

/-- Bit pattern of `1.0` (double). -/
def f64_one : Nat := 0x3FF0000000000000

/-- `dxbc_min` (both the `float` and the `double` overload, which have
identical bodies): NaN operands lose, otherwise `a < b ? a : b`. -/
def dxbc_min (fmt : FPFormat) (a b : Nat) : Nat :=
  if fp_isnan fmt a then b
  else if fp_isnan fmt b then a
  else if fp_lt fmt a b then a else b

/-- `dxbc_max` (both overloads): NaN operands lose, otherwise `a >= b ? a : b`. -/
def dxbc_max (fmt : FPFormat) (a b : Nat) : Nat :=
  if fp_isnan fmt a then b
  else if fp_isnan fmt b then a
  else if fp_ge fmt a b then a else b

/-- `flush_denorm`: if any exponent bit is set the value is returned unchanged,
otherwise only the sign bit is kept. -/
def flush_denorm (x : Nat) : Nat :=
  if x &&& 0x7F800000 ≠ 0 then x else x &&& 0x80000000

/-- `BitwiseReverseLSB16`: reverses the bits of each 16-bit half in place
(the four parallel swap steps), then `<< 16` keeps only the reversed low half.
The final shift wraps at 32 bits as the C++ `uint32_t` does. -/
def BitwiseReverseLSB16 (x : Nat) : Nat :=
  let x := ((x >>> 1) &&& 0x55555555) ||| ((x &&& 0x55555555) <<< 1)
  let x := ((x >>> 2) &&& 0x33333333) ||| ((x &&& 0x33333333) <<< 2)
  let x := ((x >>> 4) &&& 0x0F0F0F0F) ||| ((x &&& 0x0F0F0F0F) <<< 4)
  let x := ((x >>> 8) &&& 0x00FF00FF) ||| ((x &&& 0x00FF00FF) <<< 8)
  (x <<< 16) % 2 ^ 32

/-- `PopCount` (parallel bit trick), with the multiply wrapping at 32 bits as
`uint32_t` does. -/
def PopCount (x : Nat) : Nat :=
  let x := x - ((x >>> 1) &&& 0x55555555)
  let x := (x &&& 0x33333333) + ((x >>> 2) &&& 0x33333333)
  ((((x + (x >>> 4)) &&& 0x0F0F0F0F) * 0x01010101) % 2 ^ 32) >>> 24

/-- The runtime type tag of a `ShaderVariable` (`VarType`). -/
inductive VarType where
  | SInt
  | UInt
  | Float
  | Double
deriving DecidableEq, Repr

/-- The raw 4×32-bit register storage (`ShaderValue`): four words, each a bit
pattern reinterpretable as `int32`, `uint32`, `float`, or (in pairs) `double`.
Words are `Nat`s kept below `2^32` by the operations that write them. -/
structure V4 where
  c0 : Nat
  c1 : Nat
  c2 : Nat
  c3 : Nat
deriving DecidableEq, Repr

/-- Component access (the `uv[i]` view). -/
def V4.get (v : V4) : Fin 4 → Nat
  | 0 => v.c0
  | 1 => v.c1
  | 2 => v.c2
  | 3 => v.c3

/-- Component update. -/
def V4.set (v : V4) : Fin 4 → Nat → V4
  | 0, x => { v with c0 := x }
  | 1, x => { v with c1 := x }
  | 2, x => { v with c2 := x }
  | 3, x => { v with c3 := x }

/-- Access by a raw `Nat` component number; well-formed operands only use
`0..3`, the reduction mod 4 keeps the model total. -/
def V4.getN (v : V4) (n : Nat) : Nat :=
  v.get ⟨n % 4, Nat.mod_lt _ (by omega)⟩

/-- Update by a raw `Nat` component number. -/
def V4.setN (v : V4) (n : Nat) (x : Nat) : V4 :=
  v.set ⟨n % 4, Nat.mod_lt _ (by omega)⟩ x

/-- The `for(size_t i = 0; i < v.columns; i++)` update loops of the value
helpers: apply `f` to the first `cols` components. -/
def V4.mapBelow (cols : Nat) (f : Nat → Nat) (v : V4) : V4 :=
  ⟨if 0 < cols then f v.c0 else v.c0, if 1 < cols then f v.c1 else v.c1,
   if 2 < cols then f v.c2 else v.c2, if 3 < cols then f v.c3 else v.c3⟩

/-- Binary version of `V4.mapBelow` for the two-operand helpers. -/
def V4.map2Below (cols : Nat) (f : Nat → Nat → Nat) (a b : V4) : V4 :=
  ⟨if 0 < cols then f a.c0 b.c0 else a.c0, if 1 < cols then f a.c1 b.c1 else a.c1,
   if 2 < cols then f a.c2 b.c2 else a.c2, if 3 < cols then f a.c3 b.c3 else a.c3⟩

/-- The `iv[i]` view of a word: two's-complement reinterpretation. -/
def toInt32 (u : Nat) : Int :=
  if u % 2 ^ 32 < 2 ^ 31 then (u % 2 ^ 32 : Int) else (u % 2 ^ 32 : Int) - 2 ^ 32

/-- Writing an `int32_t` back into a word (wraps as the hardware does). -/
def ofInt32 (i : Int) : Nat :=
  (i % 2 ^ 32).toNat

/-- A register value: type tag, column count and raw storage.  `name` and
`rows` mirror the source's metadata fields. -/
structure ShaderVariable where
  name : String
  type : VarType
  rows : Nat
  columns : Nat
  value : V4
deriving DecidableEq, Repr

/-- The `ShaderVariable(name, uint32 a, b, c, d)` constructor: a 1×4 value.
Modelled from the spec: the constructor lives in a header outside this
translation unit; the spec's Value model gives the four-word storage and the
UInt tag for 32-bit unsigned payloads. -/
def ShaderVariable.mkU (name : String) (a b c d : Nat) : ShaderVariable :=
  ⟨name, VarType.UInt, 1, 4, ⟨a, b, c, d⟩⟩

/-- A default-constructed / zero-filled `ShaderVariable` (used by the operand
resolution fallback paths). -/
def ShaderVariable.zero (name : String) : ShaderVariable :=
  ⟨name, VarType.Float, 1, 4, ⟨0, 0, 0, 0⟩⟩

/-- `DoubleGet`: the `dv[0], dv[1]` view — each double overlays two adjacent
32-bit words (little endian: low word first). -/
def DoubleGet (v : ShaderVariable) : Nat × Nat :=
  (v.value.c0 % 2 ^ 32 + 2 ^ 32 * v.value.c1, v.value.c2 % 2 ^ 32 + 2 ^ 32 * v.value.c3)

/-- `DoubleSet`: writes two 64-bit patterns over all four words and tags the
variable as `Double`. -/
def DoubleSet (v : ShaderVariable) (d0 d1 : Nat) : ShaderVariable :=
  { v with value := ⟨d0 % 2 ^ 32, d0 >>> 32, d1 % 2 ^ 32, d1 >>> 32⟩,
           type := VarType.Double }

/-- IEEE float arithmetic left abstract: `add` on `Float`/`Double` data is
backend floating-point hardware, not reimplemented here; every theorem below
holds for any interpretation of these two functions. -/
structure FloatOps where
  addf32 : Nat → Nat → Nat
  addf64 : Nat → Nat → Nat

/-- `a > b` on float patterns. -/
def fp_gt (fmt : FPFormat) (a b : Nat) : Bool :=
  fp_lt fmt b a

/-- `sat`: integer saturates to `[0,1]`, unsigned saturates any nonzero value
to 1, float/double saturate via `min(1, max(0, x))` with the NaN-aware
min/max.  The result is retagged with the requested type. -/
def sat (v : ShaderVariable) (type : VarType) : ShaderVariable :=
  let r :=
    match type with
    | VarType.SInt =>
        let f : Nat → Nat := fun u =>
          let i := toInt32 u
          ofInt32 (if i < 0 then 0 else if i > 1 then 1 else i)
        { v with value := V4.mapBelow v.columns f v.value }
    | VarType.UInt =>
        let f : Nat → Nat := fun u => if u ≠ 0 then 1 else 0
        { v with value := V4.mapBelow v.columns f v.value }
    | VarType.Float =>
        let f : Nat → Nat := fun u => dxbc_min f32fmt f32_one (dxbc_max f32fmt 0 u)
        { v with value := V4.mapBelow v.columns f v.value }
    | VarType.Double =>
        let src := DoubleGet v
        DoubleSet v (dxbc_min f64fmt f64_one (dxbc_max f64fmt 0 src.1))
          (dxbc_min f64fmt f64_one (dxbc_max f64fmt 0 src.2))
  { r with type := type }

/-- `abs`: per-component absolute value according to the type tag; the UInt
branch is an explicit no-op in the source. -/
def abs (v : ShaderVariable) (type : VarType) : ShaderVariable :=
  let r :=
    match type with
    | VarType.SInt =>
        let f : Nat → Nat := fun u =>
          let i := toInt32 u
          ofInt32 (if i > 0 then i else -i)
        { v with value := V4.mapBelow v.columns f v.value }
    | VarType.UInt => v
    | VarType.Float =>
        let f : Nat → Nat := fun u => if fp_gt f32fmt u 0 then u else fp_neg f32fmt u
        { v with value := V4.mapBelow v.columns f v.value }
    | VarType.Double =>
        let src := DoubleGet v
        DoubleSet v (if fp_gt f64fmt src.1 0 then src.1 else fp_neg f64fmt src.1)
          (if fp_gt f64fmt src.2 0 then src.2 else fp_neg f64fmt src.2)
  { r with type := type }

/-- `neg`: per-component negation according to the type tag; the UInt branch
is an explicit no-op in the source. -/
def neg (v : ShaderVariable) (type : VarType) : ShaderVariable :=
  let r :=
    match type with
    | VarType.SInt =>
        let f : Nat → Nat := fun u => ofInt32 (-(toInt32 u))
        { v with value := V4.mapBelow v.columns f v.value }
    | VarType.UInt => v
    | VarType.Float =>
        let f : Nat → Nat := fun u => fp_neg f32fmt u
        { v with value := V4.mapBelow v.columns f v.value }
    | VarType.Double =>
        let src := DoubleGet v
        DoubleSet v (fp_neg f64fmt src.1) (fp_neg f64fmt src.2)
  { r with type := type }

/-- `add`: per-component addition according to the type tag (integer adds wrap
at 32 bits, float/double adds are the abstract `FloatOps`). -/
def add (fops : FloatOps) (a b : ShaderVariable) (type : VarType) : ShaderVariable :=
  let r :=
    match type with
    | VarType.SInt =>
        let f : Nat → Nat → Nat := fun ua ub => ofInt32 (toInt32 ua + toInt32 ub)
        { a with value := V4.map2Below a.columns f a.value b.value }
    | VarType.UInt =>
        let f : Nat → Nat → Nat := fun ua ub => (ua + ub) % 2 ^ 32
        { a with value := V4.map2Below a.columns f a.value b.value }
    | VarType.Float =>
        { a with value := V4.map2Below a.columns fops.addf32 a.value b.value }
    | VarType.Double =>
        let src0 := DoubleGet a
        let src1 := DoubleGet b
        DoubleSet a (fops.addf64 src0.1 src1.1) (fops.addf64 src0.2 src1.2)
  { r with type := type }

/-- `sub` is `add` with the negated right operand. -/
def sub (fops : FloatOps) (a b : ShaderVariable) (type : VarType) : ShaderVariable :=
  add fops a (neg b type) type

section ScalarLemmas

lemma V4.get_mapBelow (cols : Nat) (f : Nat → Nat) (v : V4) (i : Fin 4) :
    (V4.mapBelow cols f v).get i = if i.val < cols then f (v.get i) else v.get i := by
  fin_cases i <;> simp [V4.mapBelow, V4.get]

lemma V4.get_map2Below (cols : Nat) (f : Nat → Nat → Nat) (a b : V4) (i : Fin 4) :
    (V4.map2Below cols f a b).get i =
      if i.val < cols then f (a.get i) (b.get i) else a.get i := by
  fin_cases i <;> simp [V4.map2Below, V4.get]

lemma V4.mapBelow_mapBelow (cols : Nat) (f : Nat → Nat) (v : V4)
    (hf : ∀ u, f (f u) = f u) :
    V4.mapBelow cols f (V4.mapBelow cols f v) = V4.mapBelow cols f v := by
  cases v
  simp only [V4.mapBelow]
  split_ifs <;> simp [hf]

lemma unpack_pack (d : Nat) : d % 4294967296 + 4294967296 * (d >>> 32) = d := by
  rw [Nat.shiftRight_eq_div_pow]
  omega

lemma toInt32_of_01 (c : Int) (h0 : 0 ≤ c) (h1 : c ≤ 1) : toInt32 (ofInt32 c) = c := by
  interval_cases c <;> decide

lemma dxbc_sat_scalar_idem (fmt : FPFormat) (one : Nat)
    (h0 : fp_isnan fmt 0 = false) (hord0 : fp_toOrd fmt 0 = 0)
    (h1 : fp_isnan fmt one = false) (hord1 : 0 < fp_toOrd fmt one) (x : Nat) :
    dxbc_min fmt one (dxbc_max fmt 0 (dxbc_min fmt one (dxbc_max fmt 0 x))) =
      dxbc_min fmt one (dxbc_max fmt 0 x) := by
  have hnotlt : ¬ fp_toOrd fmt one < 0 := by omega
  have hmin0 : dxbc_min fmt one 0 = 0 := by
    simp [dxbc_min, h1, h0, fp_lt, hord0, hnotlt]
  have hmax00 : dxbc_max fmt 0 0 = 0 := by
    simp [dxbc_max, h0, fp_ge, hord0]
  have hmaxone : dxbc_max fmt 0 one = one := by
    simp [dxbc_max, h0, h1, fp_ge, hord0]
    omega
  have hminone : dxbc_min fmt one one = one := by
    simp [dxbc_min, h1, fp_lt]
  by_cases hx : fp_isnan fmt x = true
  · have hmax : dxbc_max fmt 0 x = 0 := by simp [dxbc_max, h0, hx]
    rw [hmax, hmin0, hmax00, hmin0]
  · by_cases hge : fp_ge fmt 0 x = true
    · have hmax : dxbc_max fmt 0 x = 0 := by
        simp [dxbc_max, h0, hx, hge]
      rw [hmax, hmin0, hmax00, hmin0]
    · have hmax : dxbc_max fmt 0 x = x := by
        simp [dxbc_max, h0, hx, hge]
      rw [hmax]
      by_cases hlt : fp_lt fmt one x = true
      · have hmin1 : dxbc_min fmt one x = one := by simp [dxbc_min, h1, hx, hlt]
        rw [hmin1, hmaxone, hminone]
      · have hmin1 : dxbc_min fmt one x = x := by simp [dxbc_min, h1, hx, hlt]
        rw [hmin1, hmax, hmin1]

lemma dxbc_sat_scalar_nan (fmt : FPFormat) (one : Nat)
    (h0 : fp_isnan fmt 0 = false) (hord0 : fp_toOrd fmt 0 = 0)
    (h1 : fp_isnan fmt one = false) (hord1 : 0 < fp_toOrd fmt one) (x : Nat)
    (hx : fp_isnan fmt x = true) :
    dxbc_min fmt one (dxbc_max fmt 0 x) = 0 := by
  have hnotlt : ¬ fp_toOrd fmt one < 0 := by omega
  have hmax : dxbc_max fmt 0 x = 0 := by simp [dxbc_max, h0, hx]
  rw [hmax]
  simp [dxbc_min, h1, h0, fp_lt, hord0, hnotlt]

lemma f32_zero_not_nan : fp_isnan f32fmt 0 = false := by decide

lemma f32_zero_ord : fp_toOrd f32fmt 0 = 0 := by decide

lemma f32_one_not_nan : fp_isnan f32fmt f32_one = false := by decide

lemma f32_one_ord_pos : 0 < fp_toOrd f32fmt f32_one := by decide

lemma f64_zero_not_nan : fp_isnan f64fmt 0 = false := by decide

lemma f64_zero_ord : fp_toOrd f64fmt 0 = 0 := by decide

lemma f64_one_not_nan : fp_isnan f64fmt f64_one = false := by decide

lemma f64_one_ord_pos : 0 < fp_toOrd f64fmt f64_one := by decide

end ScalarLemmas

/-- Claim C3: for all pairs of float (and double) bit patterns `(a, b)` where
exactly one of `a, b` is NaN, `dxbc_min` and `dxbc_max` return the non-NaN
operand; if both are NaN the result is NaN.  Stated for the `float` overloads
(`f32fmt`) and the `double` overloads (`f64fmt`), which have identical
bodies. -/
theorem C3_dxbc_minmax_nan_propagation :
    ∀ a b : Nat,
      (fp_isnan f32fmt a = true → fp_isnan f32fmt b = false →
        dxbc_min f32fmt a b = b ∧ dxbc_max f32fmt a b = b) ∧
      (fp_isnan f32fmt a = false → fp_isnan f32fmt b = true →
        dxbc_min f32fmt a b = a ∧ dxbc_max f32fmt a b = a) ∧
      (fp_isnan f32fmt a = true → fp_isnan f32fmt b = true →
        fp_isnan f32fmt (dxbc_min f32fmt a b) = true ∧
          fp_isnan f32fmt (dxbc_max f32fmt a b) = true) ∧
      (fp_isnan f64fmt a = true → fp_isnan f64fmt b = false →
        dxbc_min f64fmt a b = b ∧ dxbc_max f64fmt a b = b) ∧
      (fp_isnan f64fmt a = false → fp_isnan f64fmt b = true →
        dxbc_min f64fmt a b = a ∧ dxbc_max f64fmt a b = a) ∧
      (fp_isnan f64fmt a = true → fp_isnan f64fmt b = true →
        fp_isnan f64fmt (dxbc_min f64fmt a b) = true ∧
          fp_isnan f64fmt (dxbc_max f64fmt a b) = true) := by
  intro a b
  refine ⟨?_, ?_, ?_, ?_, ?_, ?_⟩ <;> intro ha hb <;>
    simp [dxbc_min, dxbc_max, ha, hb]

/-- Witness for C3 at concrete quiet-NaN and `1.0` patterns. -/
theorem C3_dxbc_minmax_nan_propagation_witness :
    (fp_isnan f32fmt 0x7FC00000 = true ∧ fp_isnan f32fmt 0x3F800000 = false ∧
      dxbc_min f32fmt 0x7FC00000 0x3F800000 = 0x3F800000 ∧
      dxbc_max f32fmt 0x7FC00000 0x3F800000 = 0x3F800000) ∧
    (fp_isnan f64fmt 0x7FF8000000000000 = true ∧
      fp_isnan f64fmt 0x3FF0000000000000 = false ∧
      dxbc_min f64fmt 0x7FF8000000000000 0x3FF0000000000000 = 0x3FF0000000000000) :=
  ⟨⟨by decide, by decide,
      (C3_dxbc_minmax_nan_propagation 0x7FC00000 0x3F800000).1 (by decide) (by decide)⟩,
    by decide, by decide,
    ((C3_dxbc_minmax_nan_propagation 0x7FF8000000000000 0x3FF0000000000000).2.2.2.1
        (by decide) (by decide)).1⟩

/-- The opcode subset embedded here: the opcodes the claims execute, plus the
control-flow bracket opcodes their scans traverse. -/
inductive OpcodeType where
  | OPCODE_MOV
  | OPCODE_ADD
  | OPCODE_UDIV
  | OPCODE_BFREV
  | OPCODE_COUNTBITS
  | OPCODE_UADDC
  | OPCODE_USUBB
  | OPCODE_IMM_ATOMIC_ALLOC
  | OPCODE_IMM_ATOMIC_CONSUME
  | OPCODE_SWITCH
  | OPCODE_CASE
  | OPCODE_DEFAULT
  | OPCODE_ENDSWITCH
  | OPCODE_RET
  | OPCODE_DISCARD
deriving DecidableEq, Repr

/-- `State::OperationType` restricted to the embedded opcodes: the rows of the
source's exhaustive table for exactly these opcodes (the method does not read
any state). -/
def OperationType (op : OpcodeType) : VarType :=
  match op with
  | OpcodeType.OPCODE_SWITCH | OpcodeType.OPCODE_CASE | OpcodeType.OPCODE_DEFAULT
  | OpcodeType.OPCODE_ENDSWITCH | OpcodeType.OPCODE_RET
  | OpcodeType.OPCODE_DISCARD => VarType.Float
  | OpcodeType.OPCODE_MOV | OpcodeType.OPCODE_ADD => VarType.Float
  | OpcodeType.OPCODE_BFREV | OpcodeType.OPCODE_COUNTBITS
  | OpcodeType.OPCODE_UADDC | OpcodeType.OPCODE_USUBB
  | OpcodeType.OPCODE_IMM_ATOMIC_ALLOC | OpcodeType.OPCODE_IMM_ATOMIC_CONSUME
  | OpcodeType.OPCODE_UDIV => VarType.UInt

/-- `State::OperationFlushing` restricted to the embedded opcodes: float
arithmetic flushes, data movement (`mov`), control flow and integer operations
do not. -/
def OperationFlushing (op : OpcodeType) : Bool :=
  match op with
  | OpcodeType.OPCODE_ADD => true
  | OpcodeType.OPCODE_MOV => false
  | OpcodeType.OPCODE_SWITCH | OpcodeType.OPCODE_CASE | OpcodeType.OPCODE_DEFAULT
  | OpcodeType.OPCODE_ENDSWITCH | OpcodeType.OPCODE_RET
  | OpcodeType.OPCODE_DISCARD => false
  | OpcodeType.OPCODE_BFREV | OpcodeType.OPCODE_COUNTBITS
  | OpcodeType.OPCODE_UADDC | OpcodeType.OPCODE_USUBB
  | OpcodeType.OPCODE_IMM_ATOMIC_ALLOC | OpcodeType.OPCODE_IMM_ATOMIC_CONSUME
  | OpcodeType.OPCODE_UDIV => false

/-- Modelled from the spec: `dxbc->NumOperands` (the per-opcode operand count)
lives in the decoder, outside this translation unit; the counts below are the
ones the interpreter's operand accesses require (destinations first). -/
def NumOperands (op : OpcodeType) : Nat :=
  match op with
  | OpcodeType.OPCODE_MOV => 2
  | OpcodeType.OPCODE_ADD => 3
  | OpcodeType.OPCODE_UDIV => 4
  | OpcodeType.OPCODE_BFREV => 2
  | OpcodeType.OPCODE_COUNTBITS => 2
  | OpcodeType.OPCODE_UADDC => 4
  | OpcodeType.OPCODE_USUBB => 4
  | OpcodeType.OPCODE_IMM_ATOMIC_ALLOC => 2
  | OpcodeType.OPCODE_IMM_ATOMIC_CONSUME => 2
  | OpcodeType.OPCODE_SWITCH => 1
  | OpcodeType.OPCODE_CASE => 1
  | OpcodeType.OPCODE_DEFAULT => 0
  | OpcodeType.OPCODE_ENDSWITCH => 0
  | OpcodeType.OPCODE_RET => 0
  | OpcodeType.OPCODE_DISCARD => 1

/-- The operand kinds the claims exercise.  The source's remaining kinds
(inputs, constant buffers resolved from the captured trace, system values,
semantic-output pseudo-registers) are outside the embedded subset. -/
inductive OperandType where
  | TYPE_TEMP
  | TYPE_INDEXABLE_TEMP
  | TYPE_OUTPUT
  | TYPE_INPUT
  | TYPE_CONSTANT_BUFFER
  | TYPE_NULL
  | TYPE_UNORDERED_ACCESS_VIEW
  | TYPE_IMMEDIATE32
deriving DecidableEq, Repr

/-- Operand modifiers (absolute value / negation). -/
inductive OperandModifier where
  | OPERAND_MODIFIER_NONE
  | OPERAND_MODIFIER_ABS
  | OPERAND_MODIFIER_NEG
  | OPERAND_MODIFIER_ABSNEG
deriving DecidableEq, Repr

/-- Immediate width selector. -/
inductive NumComponents where
  | NUMCOMPS_1
  | NUMCOMPS_4
deriving DecidableEq, Repr

/-- A decoded operand.  `indices` are the absolute indices (the claims do not
exercise relative addressing); `comps` is the per-component swizzle / write
mask with `0xff` marking an unused slot; `values` the immediate payload. -/
structure ASMOperand where
  type : OperandType
  indices : List Nat
  comps : V4
  numComponents : NumComponents
  values : V4
  modifier : OperandModifier
deriving DecidableEq, Repr

/-- The null operand (used as the out-of-range default where the C++ indexing
would be undefined). -/
def ASMOperand.null : ASMOperand :=
  ⟨OperandType.TYPE_NULL, [], ⟨0xff, 0xff, 0xff, 0xff⟩, NumComponents.NUMCOMPS_4,
    ⟨0, 0, 0, 0⟩, OperandModifier.OPERAND_MODIFIER_NONE⟩

/-- A decoded instruction: opcode, operand list and the per-instruction
`saturate` / `nonzero test` flags. -/
structure ASMOperation where
  operation : OpcodeType
  operands : List ASMOperand
  saturate : Bool
  nonzero : Bool
deriving DecidableEq, Repr

/-- Register kinds recorded in a `RegisterRange`.  Modelled from the spec: the
enum and the `Undefined` default of a fresh `RegisterRange` live in a header
outside this translation unit; the spec's data model lists exactly these kinds
with `Undefined` for untracked writes. -/
inductive RegisterType where
  | Undefined
  | Input
  | Temporary
  | IndexedTemporary
  | Output
deriving DecidableEq, Repr

/-- One recorded scalar register write (kind, register index, component). -/
structure RegisterRange where
  type : RegisterType
  index : Nat
  component : Nat
deriving DecidableEq, Repr

/-- `ShaderEvents::NoEvent`. -/
def ShaderEvents.NoEvent : Nat := 0

/-- `ShaderEvents::GeneratedNanOrInf` — the concrete bit value lives in a
header outside this translation unit; any fixed nonzero bit models it. -/
def ShaderEvents.GeneratedNanOrInf : Nat := 1

/-- One indexable-temporary register file. -/
structure RegisterFile where
  members : List ShaderVariable
deriving DecidableEq, Repr

/-- One lane's execution state: the fields of `State` that the interpreter
reads and writes (`dxbc`, the trace pointer and the quad index are carried
separately / not needed by the embedded opcodes). -/
structure State where
  registers : List ShaderVariable
  indexableTemps : List RegisterFile
  outputs : List ShaderVariable
  nextInstruction : Nat
  done : Bool
  flags : Nat
  modified : List RegisterRange
deriving DecidableEq, Repr

/-- A UAV's shared, cross-lane hidden counter (`uint32_t`, wraps). -/
structure UAV where
  hiddenCounter : Nat
deriving DecidableEq, Repr

/-- The shared global state portion the embedded opcodes touch. -/
structure GlobalState where
  uavs : List UAV
deriving DecidableEq, Repr

/-- `State::GetSrc` restricted to the embedded operand kinds: resolve absolute
indices, dispatch on the operand kind (bounds-checked register reads fall back
to an index-filled value exactly as the source does), apply the swizzle, the
scalar-columns rule, the abs/neg modifiers, and the denormal flush for
flushable operand kinds of flushing opcodes. -/
def State.GetSrc (st : State) (oper : ASMOperand) (op : ASMOperation) : ShaderVariable :=
  let indices : Nat → Nat := fun k => oper.indices.getD k 0
  let res : Bool × ShaderVariable :=
    match oper.type with
    | OperandType.TYPE_TEMP =>
        (true,
          if h : indices 0 < st.registers.length then st.registers.get ⟨indices 0, h⟩
          else ShaderVariable.mkU "" (indices 0) (indices 0) (indices 0) (indices 0))
    | OperandType.TYPE_INDEXABLE_TEMP =>
        (true,
          if h : oper.indices.length = 2 ∧ indices 0 < st.indexableTemps.length ∧
              indices 1 < (st.indexableTemps.getD (indices 0) ⟨[]⟩).members.length then
            (st.indexableTemps.getD (indices 0) ⟨[]⟩).members.get ⟨indices 1, h.2.2⟩
          else ShaderVariable.zero "")
    | OperandType.TYPE_OUTPUT =>
        (true,
          if h : indices 0 < st.outputs.length then st.outputs.get ⟨indices 0, h⟩
          else ShaderVariable.mkU "" (indices 0) (indices 0) (indices 0) (indices 0))
    | OperandType.TYPE_NULL | OperandType.TYPE_UNORDERED_ACCESS_VIEW =>
        (false, ShaderVariable.mkU "" (indices 0) (indices 0) (indices 0) (indices 0))
    | OperandType.TYPE_IMMEDIATE32 =>
        let cols : Nat :=
          match oper.numComponents with
          | NumComponents.NUMCOMPS_1 => 1
          | NumComponents.NUMCOMPS_4 => 4
        (true,
          { name := "Immediate", type := VarType.Float, rows := 1, columns := cols,
            value := V4.map2Below cols (fun _ s => s) ⟨0, 0, 0, 0⟩ oper.values })
    | OperandType.TYPE_INPUT | OperandType.TYPE_CONSTANT_BUFFER =>
        (true, ShaderVariable.zero "vUnsupported")
  let flushable := res.1
  let s := res.2
  let swiz : V4 :=
    ⟨s.value.getN (if oper.comps.c0 = 0xff then 0 else oper.comps.c0),
      s.value.getN (if oper.comps.c1 = 0xff then 1 else oper.comps.c1),
      s.value.getN (if oper.comps.c2 = 0xff then 2 else oper.comps.c2),
      s.value.getN (if oper.comps.c3 = 0xff then 3 else oper.comps.c3)⟩
  let cols : Nat :=
    if oper.comps.c0 ≠ 0xff ∧ oper.comps.c1 = 0xff ∧ oper.comps.c2 = 0xff ∧
        oper.comps.c3 = 0xff then 1
    else 4
  let v := { s with value := swiz, columns := cols }
  let v :=
    if oper.modifier = OperandModifier.OPERAND_MODIFIER_ABS ∨
        oper.modifier = OperandModifier.OPERAND_MODIFIER_ABSNEG then
      abs v (OperationType op.operation)
    else v
  let v :=
    if oper.modifier = OperandModifier.OPERAND_MODIFIER_NEG ∨
        oper.modifier = OperandModifier.OPERAND_MODIFIER_ABSNEG then
      neg v (OperationType op.operation)
    else v
  if OperationFlushing op.operation ∧ flushable then
    { v with value := ⟨flush_denorm v.value.c0, flush_denorm v.value.c1,
        flush_denorm v.value.c2, flush_denorm v.value.c3⟩ }
  else v

/-- `src.value.dv[i]` as read by `AssignValue` (doubles only ever use lanes 0
and 1). -/
def dvAt (src : ShaderVariable) (i : Nat) : Nat :=
  if i = 0 then (DoubleGet src).1 else if i = 1 then (DoubleGet src).2 else 0

/-- `State::AssignValue`: flags NaN/Inf production, reports whether the write
changes the stored bit pattern (old vs. incoming word), stores the word, and
flushes the stored float afterwards for flushing instructions.  `flags` is the
state's flags field, threaded explicitly. -/
def AssignValue (flags : Nat) (dst : ShaderVariable) (dstIndex : Nat)
    (src : ShaderVariable) (srcIndex : Nat) (flushDenorm : Bool) :
    Bool × ShaderVariable × Nat :=
  let flags :=
    if src.type = VarType.Float then
      if fp_infnan f32fmt (src.value.getN srcIndex) then
        flags ||| ShaderEvents.GeneratedNanOrInf
      else flags
    else if src.type = VarType.Double then
      if fp_infnan f64fmt (dvAt src srcIndex) then
        flags ||| ShaderEvents.GeneratedNanOrInf
      else flags
    else flags
  let changed : Bool := dst.value.getN dstIndex ≠ src.value.getN srcIndex
  let newv := dst.value.setN dstIndex (src.value.getN srcIndex)
  let newv :=
    if flushDenorm ∧ src.type = VarType.Float then
      newv.setN dstIndex (flush_denorm (newv.getN dstIndex))
    else newv
  (changed, { dst with value := newv }, flags)

/-- A resolved destination location inside the state. -/
inductive DstLoc where
  | none
  | reg (i : Nat)
  | idxTemp (i j : Nat)
  | output (i : Nat)
deriving DecidableEq, Repr

/-- Read the variable a destination location denotes. -/
def State.readLoc (st : State) : DstLoc → ShaderVariable
  | DstLoc.none => ShaderVariable.zero ""
  | DstLoc.reg i => st.registers.getD i (ShaderVariable.zero "")
  | DstLoc.idxTemp i j => (st.indexableTemps.getD i ⟨[]⟩).members.getD j (ShaderVariable.zero "")
  | DstLoc.output i => st.outputs.getD i (ShaderVariable.zero "")

/-- Write the variable a destination location denotes. -/
def State.writeLoc (st : State) (v : ShaderVariable) : DstLoc → State
  | DstLoc.none => st
  | DstLoc.reg i => { st with registers := st.registers.set i v }
  | DstLoc.idxTemp i j =>
      let file : RegisterFile := ⟨(st.indexableTemps.getD i ⟨[]⟩).members.set j v⟩
      { st with indexableTemps := st.indexableTemps.set i file }
  | DstLoc.output i => { st with outputs := st.outputs.set i v }

/-- Accumulator of the per-component write loop of `SetDst`. -/
structure WriteAcc where
  v : ShaderVariable
  flags : Nat
  modified : List RegisterRange
  compsWritten : Nat

/-- One iteration of the per-component write loop of `SetDst`: if the mask
selects component `comps[i]`, assign source component `comps[i]` to it and
record a `RegisterRange` when the bit pattern changed and the register kind is
tracked. -/
def writeComp (dstoper : ASMOperand) (right : ShaderVariable) (flushDenorm : Bool)
    (rtype : RegisterType) (ridx : Nat) (acc : WriteAcc) (i : Fin 4) : WriteAcc :=
  if (dstoper.comps.get i) ≠ 0xff then
    let c := dstoper.comps.get i
    let r := AssignValue acc.flags acc.v c right c flushDenorm
    { v := r.2.1, flags := r.2.2,
      modified :=
        if r.1 ∧ rtype ≠ RegisterType.Undefined then
          acc.modified ++ [⟨rtype, ridx, c⟩]
        else acc.modified,
      compsWritten := acc.compsWritten + 1 }
  else acc

/-- The write phase of `SetDst` once the destination register is resolved: the
scalar-mask branch (destination component from source component 0), or the
four-iteration component loop with its no-component-written fallback. -/
def performWrite (stFlags : Nat) (stModified : List RegisterRange)
    (v0 : ShaderVariable) (dstoper : ASMOperand) (right : ShaderVariable)
    (flushDenorm : Bool) (rtype : RegisterType) (ridx : Nat) : WriteAcc :=
  if dstoper.comps.c0 ≠ 0xff ∧ dstoper.comps.c1 = 0xff ∧ dstoper.comps.c2 = 0xff ∧
      dstoper.comps.c3 = 0xff then
    let r := AssignValue stFlags v0 dstoper.comps.c0 right 0 flushDenorm
    { v := r.2.1, flags := r.2.2,
      modified :=
        if r.1 ∧ rtype ≠ RegisterType.Undefined then
          stModified ++ [⟨rtype, ridx, dstoper.comps.c0⟩]
        else stModified,
      compsWritten := 1 }
  else
    let step := writeComp dstoper right flushDenorm rtype ridx
    let acc0 : WriteAcc := ⟨v0, stFlags, stModified, 0⟩
    let acc := step (step (step (step acc0 0) 1) 2) 3
    if acc.compsWritten = 0 then
      let r := AssignValue acc.flags acc.v 0 right 0 flushDenorm
      { v := r.2.1, flags := r.2.2,
        modified :=
          if r.1 ∧ rtype ≠ RegisterType.Undefined then
            acc.modified ++ [⟨rtype, ridx, 0⟩]
          else acc.modified,
        compsWritten := acc.compsWritten }
    else acc

/-- The destination-resolution step of `SetDst`: the register kind recorded in
the `RegisterRange` and the bounds-checked location (writes to inputs /
constant buffers are reported errors resolving nowhere; the remaining
unsupported kinds fall to the source's default case, whose name-based output
fallback is not exercised by the claims and resolves nowhere with the
`Undefined` kind). -/
def resolveDst (st : State) (dstoper : ASMOperand) : RegisterType × DstLoc :=
  let indices : Nat → Nat := fun k => dstoper.indices.getD k 0
  match dstoper.type with
  | OperandType.TYPE_TEMP =>
      (RegisterType.Temporary,
        if indices 0 < st.registers.length then DstLoc.reg (indices 0) else DstLoc.none)
  | OperandType.TYPE_INDEXABLE_TEMP =>
      (RegisterType.IndexedTemporary,
        if dstoper.indices.length = 2 ∧ indices 0 < st.indexableTemps.length ∧
            indices 1 < (st.indexableTemps.getD (indices 0) ⟨[]⟩).members.length then
          DstLoc.idxTemp (indices 0) (indices 1)
        else DstLoc.none)
  | OperandType.TYPE_OUTPUT =>
      (RegisterType.Output,
        if indices 0 < st.outputs.length then DstLoc.output (indices 0) else DstLoc.none)
  | _ => (RegisterType.Undefined, DstLoc.none)

/-- `State::SetDst` restricted to the embedded operand kinds: resolve the
destination (writes to inputs / constant buffers are reported errors and write
nothing, null destinations are discarded, out-of-bounds indices fail the
assert and skip the write), apply saturate when requested, then either the
scalar-mask write (destination component from source component 0) or the
per-masked-component write, recording a `RegisterRange` for every write that
changed the stored bit pattern of a tracked register kind. -/
def State.SetDst (st : State) (dstoper : ASMOperand) (op : ASMOperation)
    (val : ShaderVariable) : State :=
  if dstoper.type = OperandType.TYPE_NULL then st
  else
    let indices : Nat → Nat := fun k => dstoper.indices.getD k 0
    let rtype := (resolveDst st dstoper).1
    let loc := (resolveDst st dstoper).2
    if loc = DstLoc.none then st
    else
      let flushDenorm := OperationFlushing op.operation
      let right := if op.saturate then sat val (OperationType op.operation) else val
      let v0 := st.readLoc loc
      let acc := performWrite st.flags st.modified v0 dstoper right flushDenorm rtype
        (indices 0)
      { (st.writeLoc acc.v loc) with flags := acc.flags, modified := acc.modified }

/-- The per-component body of the `OPCODE_UDIV` loop: quotient and remainder
for a nonzero divisor, otherwise both slots keep the `0xffffffff` sentinel the
result variables were initialised with (no division is evaluated). -/
def udivComp (a b : Nat) : Nat × Nat :=
  if b ≠ 0 then (a / b, a - a / b * b) else (0xffffffff, 0xffffffff)

/-- The body of the `OPCODE_IMM_ATOMIC_ALLOC` handler on the global state:
`uint32_t count = global.uavs[slot].hiddenCounter++` — the destination value is
the counter BEFORE the increment. -/
def allocStep (global : GlobalState) (slot : Nat) : Nat × GlobalState :=
  let count := (global.uavs.getD slot ⟨0⟩).hiddenCounter
  (count, { global with uavs := global.uavs.set slot ⟨(count + 1) % 2 ^ 32⟩ })

/-- The body of the `OPCODE_IMM_ATOMIC_CONSUME` handler on the global state:
`uint32_t count = --global.uavs[slot].hiddenCounter` — the destination value is
the counter AFTER the decrement (wrapping at 32 bits). -/
def consumeStep (global : GlobalState) (slot : Nat) : Nat × GlobalState :=
  let count := ((global.uavs.getD slot ⟨0⟩).hiddenCounter + 2 ^ 32 - 1) % 2 ^ 32
  (count, { global with uavs := global.uavs.set slot ⟨count⟩ })

/-- The first forward scan of the `OPCODE_SWITCH` handler, translated
literally: nested switches tracked by `depth` (its `else if` on `ENDSWITCH`
makes the source's inner "reached end of our switch" break unreachable, so the
scan continues past the matching `endswitch` with `depth = -1`), `default:` at
depth 0 noted in `jumpLocation`, and a bitwise-matching `case` at depth 0
returned immediately. -/
def switchScanAux (prog : List ASMOperation) (st : State) (switchValue : Nat) :
    Nat → Nat → Int → Nat → Nat
  | 0, _, _, jumpLocation => jumpLocation
  | fuel + 1, search, depth, jumpLocation =>
    if h : search < prog.length then
      let nextOp := prog.get ⟨search, h⟩
      if nextOp.operation = OpcodeType.OPCODE_SWITCH then
        switchScanAux prog st switchValue fuel (search + 1) (depth + 1) jumpLocation
      else if nextOp.operation = OpcodeType.OPCODE_ENDSWITCH then
        switchScanAux prog st switchValue fuel (search + 1) (depth - 1) jumpLocation
      else if depth = 0 then
        let jumpLocation :=
          if nextOp.operation = OpcodeType.OPCODE_DEFAULT then search else jumpLocation
        if nextOp.operation = OpcodeType.OPCODE_CASE ∧
            (st.GetSrc (nextOp.operands.getD 0 ASMOperand.null) nextOp).value.c0 =
              switchValue then
          search
        else switchScanAux prog st switchValue fuel (search + 1) depth jumpLocation
      else switchScanAux prog st switchValue fuel (search + 1) depth jumpLocation
    else jumpLocation

/-- The first forward scan of the `OPCODE_SWITCH` handler, translated
literally: nested switches tracked by `depth` (its `else if` on `ENDSWITCH`
makes the source's inner "reached end of our switch" break unreachable, so the
scan continues past the matching `endswitch` with `depth = -1`), `default:` at
depth 0 noted in `jumpLocation`, and a bitwise-matching `case` at depth 0
returned immediately.  The fuel argument of the auxiliary function only bounds
the iteration count; the loop exits via its own `search < length` test. -/
def switchScan (prog : List ASMOperation) (st : State) (switchValue : Nat)
    (search : Nat) (depth : Int) (jumpLocation : Nat) : Nat :=
  switchScanAux prog st switchValue (prog.length + 1 - search) search depth jumpLocation

def skipLabelsAux (prog : List ASMOperation) : Nat → Nat → Nat
  | 0, j => j
  | fuel + 1, j =>
    if h : j < prog.length then
      let nextOp := prog.get ⟨j, h⟩
      if nextOp.operation ≠ OpcodeType.OPCODE_CASE ∧
          nextOp.operation ≠ OpcodeType.OPCODE_DEFAULT then j
      else skipLabelsAux prog fuel (j + 1)
    else j

/-- The second forward scan of the `OPCODE_SWITCH` handler: skip consecutive
`case` / `default` labels to the next executable instruction. -/
def skipLabels (prog : List ASMOperation) (j : Nat) : Nat :=
  skipLabelsAux prog (prog.length + 1 - j) j

/-- The zero `ShaderVariable` used as the out-of-range default for evaluated
source-operand lists. -/
def svZero : ShaderVariable := ShaderVariable.zero ""

/-- `State::GetNext`, the single-step interpreter, for the embedded opcode
subset: clear the modified list, return early if the instruction pointer is at
or past the end of the stream, otherwise advance the pointer, clear the flags,
evaluate the source operands (operands 1..) on the incoming state and dispatch
on the opcode.  `prog` is the instruction stream held by the `dxbc` member;
the oracle notification (`SetCurrentInstruction`) is observability only and
the quad argument is unused by these opcodes. -/
def State.GetNext (st : State) (prog : List ASMOperation) (fops : FloatOps)
    (global : GlobalState) : State × GlobalState :=
  let s : State := { st with modified := [] }
  if h : s.nextInstruction < prog.length then
    let op := prog.get ⟨s.nextInstruction, h⟩
    let s : State := { s with nextInstruction := s.nextInstruction + 1,
                              flags := ShaderEvents.NoEvent }
    let optype := OperationType op.operation
    let srcOpers : List ShaderVariable :=
      ((List.range (NumOperands op.operation)).drop 1).map
        (fun i => st.GetSrc (op.operands.getD i ASMOperand.null) op)
    let src : Nat → ShaderVariable := fun k => srcOpers.getD k svZero
    let dst : Nat → ASMOperand := fun k => op.operands.getD k ASMOperand.null
    match op.operation with
    | OpcodeType.OPCODE_MOV => (s.SetDst (dst 0) op (src 0), global)
    | OpcodeType.OPCODE_ADD =>
        (s.SetDst (dst 0) op (add fops (src 0) (src 1) optype), global)
    | OpcodeType.OPCODE_UDIV =>
        let a := (src 1).value
        let b := (src 2).value
        let quot := ShaderVariable.mkU "" (udivComp a.c0 b.c0).1 (udivComp a.c1 b.c1).1
          (udivComp a.c2 b.c2).1 (udivComp a.c3 b.c3).1
        let rem := ShaderVariable.mkU "" (udivComp a.c0 b.c0).2 (udivComp a.c1 b.c1).2
          (udivComp a.c2 b.c2).2 (udivComp a.c3 b.c3).2
        let s := if (dst 0).type ≠ OperandType.TYPE_NULL then s.SetDst (dst 0) op quot else s
        let s := if (dst 1).type ≠ OperandType.TYPE_NULL then s.SetDst (dst 1) op rem else s
        (s, global)
    | OpcodeType.OPCODE_BFREV =>
        let a := (src 0).value
        let ret := ShaderVariable.mkU "" (BitwiseReverseLSB16 a.c0) (BitwiseReverseLSB16 a.c1)
          (BitwiseReverseLSB16 a.c2) (BitwiseReverseLSB16 a.c3)
        (s.SetDst (dst 0) op ret, global)
    | OpcodeType.OPCODE_COUNTBITS =>
        let a := (src 0).value
        let ret := ShaderVariable.mkU "" (PopCount a.c0) (PopCount a.c1)
          (PopCount a.c2) (PopCount a.c3)
        (s.SetDst (dst 0) op ret, global)
    | OpcodeType.OPCODE_UADDC =>
        -- literal translation: the second loop OVERWRITES `src` instead of
        -- adding to it (`src[i] = ...` where an addition was intended), so the
        -- result is just the second source and the carries are always 0
        let _src64 : V4 := (src 1).value
        let src64 : V4 := (src 2).value
        let dstv := ShaderVariable.mkU "" (src64.c0 &&& 0xffffffff) (src64.c1 &&& 0xffffffff)
          (src64.c2 &&& 0xffffffff) (src64.c3 &&& 0xffffffff)
        let s := s.SetDst (dst 0) op dstv
        let carry := ShaderVariable.mkU "" (if src64.c0 > 0xffffffff then 1 else 0)
          (if src64.c1 > 0xffffffff then 1 else 0) (if src64.c2 > 0xffffffff then 1 else 0)
          (if src64.c3 > 0xffffffff then 1 else 0)
        let s := if (dst 1).type ≠ OperandType.TYPE_NULL then s.SetDst (dst 1) op carry else s
        (s, global)
    | OpcodeType.OPCODE_USUBB =>
        -- literal translation: the borrow bit is prepended to the first
        -- source, the subtract is per-component, but the primary result write
        -- uses `result[0]` for every component (the source's latent defect)
        let src0 : V4 := ⟨0x100000000 ||| (src 1).value.c0, 0x100000000 ||| (src 1).value.c1,
          0x100000000 ||| (src 1).value.c2, 0x100000000 ||| (src 1).value.c3⟩
        let src1 : V4 := (src 2).value
        let result : V4 := ⟨src0.c0 - src1.c0, src0.c1 - src1.c1,
          src0.c2 - src1.c2, src0.c3 - src1.c3⟩
        let dstv := ShaderVariable.mkU "" (result.c0 &&& 0xffffffff) (result.c0 &&& 0xffffffff)
          (result.c0 &&& 0xffffffff) (result.c0 &&& 0xffffffff)
        let s := s.SetDst (dst 0) op dstv
        let borrow := ShaderVariable.mkU "" (if result.c0 ≤ 0xffffffff then 1 else 0)
          (if result.c1 ≤ 0xffffffff then 1 else 0) (if result.c2 ≤ 0xffffffff then 1 else 0)
          (if result.c3 ≤ 0xffffffff then 1 else 0)
        let s := if (dst 1).type ≠ OperandType.TYPE_NULL then s.SetDst (dst 1) op borrow else s
        (s, global)
    | OpcodeType.OPCODE_IMM_ATOMIC_ALLOC =>
        let r := allocStep global (src 0).value.c0
        (s.SetDst (dst 0) op (ShaderVariable.mkU "" r.1 r.1 r.1 r.1), r.2)
    | OpcodeType.OPCODE_IMM_ATOMIC_CONSUME =>
        let r := consumeStep global (src 0).value.c0
        (s.SetDst (dst 0) op (ShaderVariable.mkU "" r.1 r.1 r.1 r.1), r.2)
    | OpcodeType.OPCODE_SWITCH =>
        let switchValue := (st.GetSrc (dst 0) op).value.c0
        let jumpLocation := switchScan prog st switchValue s.nextInstruction 0 0
        if jumpLocation = 0 then (s, global)
        else ({ s with nextInstruction := skipLabels prog jumpLocation }, global)
    | OpcodeType.OPCODE_CASE => (s, global)
    | OpcodeType.OPCODE_DEFAULT => (s, global)
    | OpcodeType.OPCODE_ENDSWITCH => (s, global)
    | OpcodeType.OPCODE_RET => ({ s with done := true }, global)
    | OpcodeType.OPCODE_DISCARD =>
        let test := toInt32 ((st.GetSrc (dst 0) op).value.c0)
        if (test ≠ 0 ∧ ¬op.nonzero) ∨ (test = 0 ∧ op.nonzero) then (s, global)
        else ({ s with done := true }, global)
  else (s, global)

/-- Pointwise idempotence of the SInt saturate written by the source. -/
lemma satSInt_scalar_idem (u : Nat) :
    ofInt32
        (if toInt32 (ofInt32
              (if toInt32 u < 0 then 0 else if toInt32 u > 1 then 1 else toInt32 u)) < 0 then
          0
        else if toInt32 (ofInt32
              (if toInt32 u < 0 then 0 else if toInt32 u > 1 then 1 else toInt32 u)) > 1 then
          1
        else toInt32 (ofInt32
              (if toInt32 u < 0 then 0 else if toInt32 u > 1 then 1 else toInt32 u))) =
      ofInt32 (if toInt32 u < 0 then 0 else if toInt32 u > 1 then 1 else toInt32 u) := by
  have hc : 0 ≤ (if toInt32 u < 0 then 0 else if toInt32 u > 1 then 1 else toInt32 u) ∧
      (if toInt32 u < 0 then 0 else if toInt32 u > 1 then 1 else toInt32 u) ≤ 1 := by
    split_ifs <;> omega
  rw [toInt32_of_01 _ hc.1 hc.2]
  have : (if (if toInt32 u < 0 then 0 else if toInt32 u > 1 then 1 else toInt32 u) < 0 then 0
      else if (if toInt32 u < 0 then 0 else if toInt32 u > 1 then 1 else toInt32 u) > 1 then
        (1 : Int)
      else if toInt32 u < 0 then 0 else if toInt32 u > 1 then 1 else toInt32 u) =
      (if toInt32 u < 0 then 0 else if toInt32 u > 1 then 1 else toInt32 u) := by
    split_ifs <;> omega
  rw [this]

/-- Claim C4: `sat` clamps SInt components to `[0,1]`, collapses UInt
components to `0`/`1`, applies `min(1, max(0, x))` with the NaN-aware min/max
on Float components (so a NaN component saturates to `0`) and on both Double
halves, and is idempotent for every type tag. -/
theorem C4_sat_per_type_and_idempotent :
    (∀ (v : ShaderVariable) (i : Fin 4), i.val < v.columns →
      toInt32 ((sat v VarType.SInt).value.get i) =
          max 0 (min 1 (toInt32 (v.value.get i))) ∧
        (sat v VarType.UInt).value.get i = (if v.value.get i = 0 then 0 else 1) ∧
        (sat v VarType.Float).value.get i =
          dxbc_min f32fmt f32_one (dxbc_max f32fmt 0 (v.value.get i)) ∧
        (fp_isnan f32fmt (v.value.get i) = true →
          (sat v VarType.Float).value.get i = 0)) ∧
    (∀ v : ShaderVariable,
      DoubleGet (sat v VarType.Double) =
          (dxbc_min f64fmt f64_one (dxbc_max f64fmt 0 (DoubleGet v).1),
            dxbc_min f64fmt f64_one (dxbc_max f64fmt 0 (DoubleGet v).2)) ∧
        (fp_isnan f64fmt (DoubleGet v).1 = true →
          (DoubleGet (sat v VarType.Double)).1 = 0)) ∧
    (∀ (t : VarType) (v : ShaderVariable), sat (sat v t) t = sat v t) := by
  refine ⟨?_, ?_, ?_⟩
  · intro v i h
    refine ⟨?_, ?_, ?_, ?_⟩
    · simp only [sat, V4.get_mapBelow, h, if_true, if_pos h]
      have hc : (if toInt32 (v.value.get i) < 0 then 0
          else if toInt32 (v.value.get i) > 1 then 1 else toInt32 (v.value.get i)) =
          max 0 (min 1 (toInt32 (v.value.get i))) := by
        split_ifs <;> omega
      rw [hc, toInt32_of_01 _ (by omega) (by omega)]
    · simp only [sat, V4.get_mapBelow, if_pos h]
      split_ifs <;> simp_all
    · simp only [sat, V4.get_mapBelow, if_pos h]
    · intro hx
      simp only [sat, V4.get_mapBelow, if_pos h]
      exact dxbc_sat_scalar_nan f32fmt f32_one f32_zero_not_nan f32_zero_ord
        f32_one_not_nan f32_one_ord_pos _ hx
  · intro v
    have hD : DoubleGet (sat v VarType.Double) =
        (dxbc_min f64fmt f64_one (dxbc_max f64fmt 0 (DoubleGet v).1),
          dxbc_min f64fmt f64_one (dxbc_max f64fmt 0 (DoubleGet v).2)) := by
      simp [sat, DoubleSet, DoubleGet, unpack_pack]
    refine ⟨hD, ?_⟩
    intro hx
    rw [hD]
    exact dxbc_sat_scalar_nan f64fmt f64_one f64_zero_not_nan f64_zero_ord
      f64_one_not_nan f64_one_ord_pos _ hx
  · intro t v
    cases t
    · simp only [sat]
      rw [V4.mapBelow_mapBelow _ _ _ satSInt_scalar_idem]
    · simp only [sat]
      rw [V4.mapBelow_mapBelow]
      intro u
      by_cases hu : u = 0 <;> simp [hu]
    · simp only [sat]
      rw [V4.mapBelow_mapBelow]
      intro u
      exact dxbc_sat_scalar_idem f32fmt f32_one f32_zero_not_nan f32_zero_ord
        f32_one_not_nan f32_one_ord_pos u
    · simp only [sat, DoubleSet, DoubleGet]
      simp [unpack_pack, dxbc_sat_scalar_idem f64fmt f64_one f64_zero_not_nan f64_zero_ord
        f64_one_not_nan f64_one_ord_pos]

/-- Witness for C4: a concrete value with a NaN float component, evaluated. -/
theorem C4_sat_per_type_and_idempotent_witness :
    (0 : Nat) < (ShaderVariable.mkU "" 0x7FC00000 5 0xC0000000 0x40000000).columns ∧
    fp_isnan f32fmt 0x7FC00000 = true ∧
    (sat (ShaderVariable.mkU "" 0x7FC00000 5 0xC0000000 0x40000000)
        VarType.Float).value.get 0 = 0 ∧
    toInt32 ((sat (ShaderVariable.mkU "" 0x7FC00000 5 0xC0000000 0x40000000)
        VarType.SInt).value.get 0) =
      max 0 (min 1 (toInt32 ((ShaderVariable.mkU "" 0x7FC00000 5 0xC0000000
        0x40000000).value.get 0))) :=
  ⟨by decide, by decide,
    ((C4_sat_per_type_and_idempotent.1
        (ShaderVariable.mkU "" 0x7FC00000 5 0xC0000000 0x40000000) 0
        (by decide)).2.2.2) (by decide),
    (C4_sat_per_type_and_idempotent.1
        (ShaderVariable.mkU "" 0x7FC00000 5 0xC0000000 0x40000000) 0
        (by decide)).1⟩

/-- Claim C10: with the UInt type tag, `abs` and `neg` leave the raw value
untouched (and are the identity on UInt-typed values), so `sub` with UInt
degenerates to `add` with UInt — for any interpretation of the abstract float
arithmetic. -/
theorem C10_uint_abs_neg_identity :
    ∀ (fops : FloatOps) (v a b : ShaderVariable),
      (abs v VarType.UInt).value = v.value ∧
      (neg v VarType.UInt).value = v.value ∧
      (v.type = VarType.UInt → abs v VarType.UInt = v ∧ neg v VarType.UInt = v) ∧
      sub fops a b VarType.UInt = add fops a b VarType.UInt := by
  intro fops v a b
  refine ⟨rfl, rfl, ?_, rfl⟩
  intro h
  cases v
  simp_all [abs, neg]

/-- Witness for C10 at a concrete UInt-typed value. -/
theorem C10_uint_abs_neg_identity_witness :
    (ShaderVariable.mkU "r" 1 2 3 4).type = VarType.UInt ∧
    abs (ShaderVariable.mkU "r" 1 2 3 4) VarType.UInt = ShaderVariable.mkU "r" 1 2 3 4 ∧
    neg (ShaderVariable.mkU "r" 1 2 3 4) VarType.UInt = ShaderVariable.mkU "r" 1 2 3 4 :=
  ⟨by decide,
    ((C10_uint_abs_neg_identity ⟨fun a _ => a, fun a _ => a⟩ (ShaderVariable.mkU "r" 1 2 3 4)
        (ShaderVariable.mkU "r" 1 2 3 4) (ShaderVariable.mkU "r" 1 2 3 4)).2.2.1
      (by decide)).1,
    ((C10_uint_abs_neg_identity ⟨fun a _ => a, fun a _ => a⟩ (ShaderVariable.mkU "r" 1 2 3 4)
        (ShaderVariable.mkU "r" 1 2 3 4) (ShaderVariable.mkU "r" 1 2 3 4)).2.2.1
      (by decide)).2⟩


section Fixtures

/-- An identity-mask / identity-swizzle temporary-register operand (usable as
source or destination). -/
def tempOper (r : Nat) : ASMOperand :=
  ⟨OperandType.TYPE_TEMP, [r], ⟨0, 1, 2, 3⟩, NumComponents.NUMCOMPS_4, ⟨0, 0, 0, 0⟩,
    OperandModifier.OPERAND_MODIFIER_NONE⟩

/-- A scalar 32-bit immediate operand. -/
def immScalar (v : Nat) : ASMOperand :=
  ⟨OperandType.TYPE_IMMEDIATE32, [], ⟨0, 0xff, 0xff, 0xff⟩, NumComponents.NUMCOMPS_1,
    ⟨v, 0, 0, 0⟩, OperandModifier.OPERAND_MODIFIER_NONE⟩

/-- A UAV-slot operand. -/
def uavOper (u : Nat) : ASMOperand :=
  ⟨OperandType.TYPE_UNORDERED_ACCESS_VIEW, [u], ⟨0, 1, 2, 3⟩, NumComponents.NUMCOMPS_4,
    ⟨0, 0, 0, 0⟩, OperandModifier.OPERAND_MODIFIER_NONE⟩

/-- `mov r0, r1`. -/
def movOp : ASMOperation :=
  ⟨OpcodeType.OPCODE_MOV, [tempOper 0, tempOper 1], false, false⟩

/-- `ret`. -/
def retOp : ASMOperation := ⟨OpcodeType.OPCODE_RET, [], false, false⟩

/-- `switch` on a scalar immediate. -/
def switchOn (v : Nat) : ASMOperation :=
  ⟨OpcodeType.OPCODE_SWITCH, [immScalar v], false, false⟩

/-- `case` with a scalar immediate label value. -/
def caseOf (v : Nat) : ASMOperation :=
  ⟨OpcodeType.OPCODE_CASE, [immScalar v], false, false⟩

/-- `default`. -/
def defaultOp : ASMOperation := ⟨OpcodeType.OPCODE_DEFAULT, [], false, false⟩

/-- `endswitch`. -/
def endswitchOp : ASMOperation := ⟨OpcodeType.OPCODE_ENDSWITCH, [], false, false⟩

/-- `udiv r0, r1, r2, r3`. -/
def udivOp : ASMOperation :=
  ⟨OpcodeType.OPCODE_UDIV, [tempOper 0, tempOper 1, tempOper 2, tempOper 3], false, false⟩

/-- `uaddc r0, r1, r2, r3`. -/
def uaddcOp : ASMOperation :=
  ⟨OpcodeType.OPCODE_UADDC, [tempOper 0, tempOper 1, tempOper 2, tempOper 3], false, false⟩

/-- `usubb r0, r1, r2, r3`. -/
def usubbOp : ASMOperation :=
  ⟨OpcodeType.OPCODE_USUBB, [tempOper 0, tempOper 1, tempOper 2, tempOper 3], false, false⟩

/-- `bfrev r0, r1`. -/
def bfrevOp : ASMOperation :=
  ⟨OpcodeType.OPCODE_BFREV, [tempOper 0, tempOper 1], false, false⟩

/-- `imm_atomic_alloc r0, u0`. -/
def allocOp : ASMOperation :=
  ⟨OpcodeType.OPCODE_IMM_ATOMIC_ALLOC, [tempOper 0, uavOper 0], false, false⟩

/-- `imm_atomic_consume r0, u0`. -/
def consumeOp : ASMOperation :=
  ⟨OpcodeType.OPCODE_IMM_ATOMIC_CONSUME, [tempOper 0, uavOper 0], false, false⟩

/-- A concrete interpretation of the abstract float arithmetic, used only to
instantiate theorems at concrete inputs. -/
def fopsId : FloatOps := ⟨fun a _ => a, fun a _ => a⟩

/-- A fresh lane state over the given registers. -/
def mkState (regs : List ShaderVariable) : State :=
  ⟨regs, [], [], 0, false, 0, []⟩

/-- A zeroed temporary register. -/
def rz (name : String) : ShaderVariable := ShaderVariable.mkU name 0 0 0 0

/-- A Float-typed register holding (1.0, 2.0, 3.0, 4.0). -/
def r1f : ShaderVariable :=
  ⟨"r1", VarType.Float, 1, 4, ⟨0x3F800000, 0x40000000, 0x40400000, 0x40800000⟩⟩

end Fixtures

/-- Claim C1 (amended): when the instruction pointer is at or past the end of
the instruction stream, `GetNext` returns the state unchanged in every field
except `modified`, which it clears before the terminal check, and performs no
register or global writes.  (The `done` flag alone does not short-circuit
`GetNext`; see the counterexample.) -/
theorem C1_terminal_step_clears_modified_only (prog : List ASMOperation)
    (fops : FloatOps) (global : GlobalState) (st : State)
    (h : prog.length ≤ st.nextInstruction) :
    st.GetNext prog fops global = ({ st with modified := [] }, global) := by
  have hn : ¬ (({ st with modified := ([] : List RegisterRange) } : State).nextInstruction <
      prog.length) := by
    show ¬ st.nextInstruction < prog.length
    omega
  unfold State.GetNext
  rw [dif_neg hn]

/-- Witness for the amended C1 at a concrete terminal state. -/
theorem C1_terminal_step_clears_modified_only_witness :
    ([retOp] : List ASMOperation).length ≤
        (⟨[], [], [], 1, false, 0, [⟨RegisterType.Temporary, 0, 0⟩]⟩ : State).nextInstruction ∧
    (⟨[], [], [], 1, false, 0, [⟨RegisterType.Temporary, 0, 0⟩]⟩ : State).GetNext [retOp]
        fopsId ⟨[]⟩ =
      (⟨[], [], [], 1, false, 0, []⟩, ⟨[]⟩) :=
  ⟨by decide,
    C1_terminal_step_clears_modified_only [retOp] fopsId ⟨[]⟩
      ⟨[], [], [], 1, false, 0, [⟨RegisterType.Temporary, 0, 0⟩]⟩ (by decide)⟩

/-- Claim C1 as stated is false on the code: a terminal state with a nonempty
`modified` list is not returned unchanged (the list is cleared), and a state
whose `done` flag is set but whose pointer is still in range is not a no-op —
the next instruction executes (here `ret` advances the pointer). -/
theorem C1_claim_counterexample :
    ((⟨[], [], [], 1, false, 0, [⟨RegisterType.Temporary, 0, 0⟩]⟩ : State).GetNext [retOp]
        fopsId ⟨[]⟩).1 ≠
      (⟨[], [], [], 1, false, 0, [⟨RegisterType.Temporary, 0, 0⟩]⟩ : State) ∧
    (⟨[], [], [], 0, true, 0, []⟩ : State).done = true ∧
    ((⟨[], [], [], 0, true, 0, []⟩ : State).GetNext [retOp] fopsId ⟨[]⟩).1.nextInstruction = 1 ∧
    ((⟨[], [], [], 0, true, 0, []⟩ : State).GetNext [retOp] fopsId ⟨[]⟩).1 ≠
      (⟨[], [], [], 0, true, 0, []⟩ : State) := by
  refine ⟨by decide, by decide, by decide, by decide⟩

/-- Claim C6: per component, `udiv` with a zero divisor leaves the
`0xffffffff` sentinel in both the quotient and remainder slots without
evaluating a division, and with a nonzero divisor produces the unsigned
quotient and remainder; executing a concrete `udiv r0, r1, r2, r3` with
divisor components `(2, 0, 5, 0)` delivers exactly that to both destinations
and completes (the pointer advances, no fault). -/
theorem C6_udiv_zero_divisor_sentinel :
    (∀ a b : Nat,
      (b = 0 → udivComp a b = (0xffffffff, 0xffffffff)) ∧
      (b ≠ 0 → udivComp a b = (a / b, a % b))) ∧
    (((mkState [rz "r0", rz "r1", ShaderVariable.mkU "r2" 7 9 22 1,
          ShaderVariable.mkU "r3" 2 0 5 0]).GetNext [udivOp] fopsId
        ⟨[]⟩).1.registers.getD 0 svZero).value = ⟨3, 0xffffffff, 4, 0xffffffff⟩ ∧
    (((mkState [rz "r0", rz "r1", ShaderVariable.mkU "r2" 7 9 22 1,
          ShaderVariable.mkU "r3" 2 0 5 0]).GetNext [udivOp] fopsId
        ⟨[]⟩).1.registers.getD 1 svZero).value = ⟨1, 0xffffffff, 2, 0xffffffff⟩ ∧
    ((mkState [rz "r0", rz "r1", ShaderVariable.mkU "r2" 7 9 22 1,
          ShaderVariable.mkU "r3" 2 0 5 0]).GetNext [udivOp] fopsId
        ⟨[]⟩).1.nextInstruction = 1 := by
  refine ⟨?_, by decide, by decide, by decide⟩
  intro a b
  refine ⟨fun h => by simp [udivComp, h], fun h => ?_⟩
  simp only [udivComp, if_pos h]
  have hd : a / b * b + a % b = a := Nat.div_add_mod' a b
  have : a - a / b * b = a % b := by omega
  rw [this]

/-- Witness for C6 at concrete divisor values. -/
theorem C6_udiv_zero_divisor_sentinel_witness :
    (0 : Nat) = 0 ∧ udivComp 7 0 = (0xffffffff, 0xffffffff) ∧
    (5 : Nat) ≠ 0 ∧ udivComp 22 5 = (22 / 5, 22 % 5) :=
  ⟨rfl, (C6_udiv_zero_divisor_sentinel.1 7 0).1 rfl, by decide,
    (C6_udiv_zero_divisor_sentinel.1 22 5).2 (by decide)⟩

/-- Claim C7 (amended): `imm_atomic_alloc` increments the UAV's hidden counter
(wrapping at 32 bits) and yields the value from BEFORE the increment, while
`imm_atomic_consume` decrements the counter (pre-decrement, wrapping) and
yields the value from AFTER the decrement; a full `GetNext` step delivers that
value to all four components of the destination register. -/
theorem C7_alloc_returns_pre_consume_returns_post :
    (∀ cnt : Nat,
      allocStep ⟨[⟨cnt⟩]⟩ 0 = (cnt, ⟨[⟨(cnt + 1) % 2 ^ 32⟩]⟩) ∧
      consumeStep ⟨[⟨cnt⟩]⟩ 0 =
        ((cnt + 2 ^ 32 - 1) % 2 ^ 32, ⟨[⟨(cnt + 2 ^ 32 - 1) % 2 ^ 32⟩]⟩)) ∧
    ((mkState [rz "r0"]).GetNext [allocOp] fopsId ⟨[⟨5⟩]⟩).2 = ⟨[⟨6⟩]⟩ ∧
    (((mkState [rz "r0"]).GetNext [allocOp] fopsId ⟨[⟨5⟩]⟩).1.registers.getD 0
        svZero).value = ⟨5, 5, 5, 5⟩ ∧
    ((mkState [rz "r0"]).GetNext [consumeOp] fopsId ⟨[⟨5⟩]⟩).2 = ⟨[⟨4⟩]⟩ ∧
    (((mkState [rz "r0"]).GetNext [consumeOp] fopsId ⟨[⟨5⟩]⟩).1.registers.getD 0
        svZero).value = ⟨4, 4, 4, 4⟩ ∧
    ((mkState [rz "r0"]).GetNext [consumeOp] fopsId ⟨[⟨0⟩]⟩).2 = ⟨[⟨0xffffffff⟩]⟩ ∧
    (((mkState [rz "r0"]).GetNext [consumeOp] fopsId ⟨[⟨0⟩]⟩).1.registers.getD 0
        svZero).value = ⟨0xffffffff, 0xffffffff, 0xffffffff, 0xffffffff⟩ := by
  refine ⟨fun cnt => ⟨rfl, rfl⟩, by decide, by decide, by decide, by decide, by decide,
    by decide⟩

/-- Claim C7 as stated is false on the code for `consume`: with the hidden
counter at 5, the destination receives 4 (the post-decrement value), not the
pre-mutation value 5. -/
theorem C7_claim_counterexample :
    ((mkState [ShaderVariable.mkU "r0" 9 9 9 9]).GetNext [consumeOp] fopsId
        ⟨[⟨5⟩]⟩).2.uavs = [⟨4⟩] ∧
    (((mkState [ShaderVariable.mkU "r0" 9 9 9 9]).GetNext [consumeOp] fopsId
        ⟨[⟨5⟩]⟩).1.registers.getD 0 svZero).value = ⟨4, 4, 4, 4⟩ ∧
    (4 : Nat) ≠ 5 := by
  refine ⟨by decide, by decide, by decide⟩

/-- Claim C8 is violated by the code: `uaddc` overwrites its first source with
the second instead of adding (so the primary destination receives the second
source, not the sum, and the carry flags are always 0), and `usubb` writes
`result[0]` to every component of the primary destination (the borrow flags
are per-component).  Evaluated at concrete failing inputs. -/
theorem C8_uaddc_usubb_actual_behavior :
    (((mkState [rz "r0", rz "r1", ShaderVariable.mkU "r2" 1 2 3 0xffffffff,
          ShaderVariable.mkU "r3" 10 20 30 1]).GetNext [uaddcOp] fopsId
        ⟨[]⟩).1.registers.getD 0 svZero).value = ⟨10, 20, 30, 1⟩ ∧
    (((mkState [rz "r0", rz "r1", ShaderVariable.mkU "r2" 1 2 3 0xffffffff,
          ShaderVariable.mkU "r3" 10 20 30 1]).GetNext [uaddcOp] fopsId
        ⟨[]⟩).1.registers.getD 1 svZero).value = ⟨0, 0, 0, 0⟩ ∧
    (⟨10, 20, 30, 1⟩ : V4) ≠
      ⟨(1 + 10) % 2 ^ 32, (2 + 20) % 2 ^ 32, (3 + 30) % 2 ^ 32,
        (0xffffffff + 1) % 2 ^ 32⟩ ∧
    (0 : Nat) ≠ (if 0xffffffff + 1 > 0xffffffff then 1 else 0) ∧
    (((mkState [rz "r0", rz "r1", ShaderVariable.mkU "r2" 10 7 3 0,
          ShaderVariable.mkU "r3" 1 2 3 4]).GetNext [usubbOp] fopsId
        ⟨[]⟩).1.registers.getD 0 svZero).value = ⟨9, 9, 9, 9⟩ ∧
    (((mkState [rz "r0", rz "r1", ShaderVariable.mkU "r2" 10 7 3 0,
          ShaderVariable.mkU "r3" 1 2 3 4]).GetNext [usubbOp] fopsId
        ⟨[]⟩).1.registers.getD 1 svZero).value = ⟨0, 0, 0, 1⟩ ∧
    (⟨9, 9, 9, 9⟩ : V4) ≠ ⟨9, 5, 0, 0xfffffffc⟩ := by
  refine ⟨by decide, by decide, by decide, by decide, by decide, by decide, by decide⟩


/-- Claim C9 (amended): `BitwiseReverseLSB16` places the bit-reversal of the
LOW 16 bits of its input in the high half of the result (bit `k` of the
source, `k < 16`, appears at bit `31 - k`), zeroes the low half, and discards
the source's upper 16 bits; executing `bfrev` writes exactly this value for
each component. -/
theorem C9_bfrev_reverses_low_half :
    (∀ x : Nat, BitwiseReverseLSB16 x < 2 ^ 32 ∧
      ∀ k : Fin 16,
        (BitwiseReverseLSB16 x).testBit (31 - k.val) = x.testBit k.val ∧
          (BitwiseReverseLSB16 x).testBit k.val = false) ∧
    (((mkState [rz "r0", ShaderVariable.mkU "r1" 0x00010000 1 0xFFFF0001 0]).GetNext
        [bfrevOp] fopsId ⟨[]⟩).1.registers.getD 0 svZero).value =
      ⟨BitwiseReverseLSB16 0x00010000, BitwiseReverseLSB16 1,
        BitwiseReverseLSB16 0xFFFF0001, BitwiseReverseLSB16 0⟩ := by
  refine ⟨fun x => ⟨Nat.mod_lt _ (by decide), fun k => ?_⟩, by decide⟩
  fin_cases k <;> refine ⟨?_, ?_⟩ <;>
    · simp only [BitwiseReverseLSB16, Nat.testBit_mod_two_pow, Nat.testBit_shiftLeft,
        Nat.testBit_shiftRight, Nat.testBit_or, Nat.testBit_and]
      norm_num
      all_goals simp [Nat.testBit_to_div_mod]

/-- Claim C9 as stated is false on the code: the source component
`0x00010000` has bit 16 set, so a full 32-bit reversal would set bit 15 of the
result, but executing `bfrev` writes 0 (the upper 16 source bits are
discarded). -/
theorem C9_claim_counterexample :
    (((mkState [rz "r0", ShaderVariable.mkU "r1" 0x00010000 1 0xFFFF0001 0]).GetNext
        [bfrevOp] fopsId ⟨[]⟩).1.registers.getD 0 svZero).value =
      ⟨0, 0x80000000, 0x80000000, 0⟩ ∧
    Nat.testBit 0x00010000 16 = true ∧
    Nat.testBit 0 (31 - 16) = false := by
  refine ⟨by decide, by decide, by decide⟩


/-- The C2 failing program: a switch on value 5 whose cases are {1, default},
followed by a second, unrelated switch containing a `case 5`.
Indices: 0 `switch 5`, 1 `case 1`, 2 `mov`, 3 `default`, 4 `mov`,
5 `endswitch`, 6 `switch 0`, 7 `case 5`, 8 `mov`, 9 `endswitch`. -/
def progSw : List ASMOperation :=
  [switchOn 5, caseOf 1, movOp, defaultOp, movOp, endswitchOp,
    switchOn 0, caseOf 5, movOp, endswitchOp]

/-- Claim C2 is violated by the code: executing the first `switch` of
`progSw` (value 5, no matching case before its own `endswitch`, `default` at
index 3) should fall through to its `default` and resume at index 4, but the
scan's `else if` on `ENDSWITCH` makes the "reached end of our switch" break
unreachable, so the scan runs past index 5 with depth −1, re-enters the
second switch at depth 0, matches ITS `case 5` at index 7, and resumes at
index 8 — inside a different switch. -/
theorem C2_switch_scan_escapes_into_next_switch :
    ((mkState [rz "r0", rz "r1"]).GetNext progSw fopsId ⟨[]⟩).1.nextInstruction = 8 ∧
    (8 : Nat) ≠ 4 ∧
    (progSw.getD 3 retOp).operation = OpcodeType.OPCODE_DEFAULT ∧
    (progSw.getD 7 retOp).operation = OpcodeType.OPCODE_CASE ∧
    switchScan progSw (mkState [rz "r0", rz "r1"]) 5 1 0 0 = 7 := by
  refine ⟨by decide, by decide, by decide, by decide, by decide⟩


section C5Lemmas

lemma writeComp_modified_mem (d : ASMOperand) (right : ShaderVariable) (f : Bool)
    (t : RegisterType) (x : Nat) (acc : WriteAcc) (i : Fin 4) (e : RegisterRange)
    (he : e ∈ (writeComp d right f t x acc i).modified) :
    e ∈ acc.modified ∨ (e.type = t ∧ t ≠ RegisterType.Undefined) := by
  unfold writeComp at he
  split at he
  · simp only [] at he
    split at he
    · rename_i hcond
      rcases List.mem_append.mp he with h | h
      · exact Or.inl h
      · simp only [List.mem_singleton] at h
        subst h
        exact Or.inr ⟨rfl, hcond.2⟩
    · exact Or.inl he
  · exact Or.inl he

lemma performWrite_modified_mem (F : Nat) (M : List RegisterRange)
    (v0 : ShaderVariable) (d : ASMOperand) (right : ShaderVariable) (f : Bool)
    (t : RegisterType) (x : Nat) (e : RegisterRange)
    (he : e ∈ (performWrite F M v0 d right f t x).modified) :
    e ∈ M ∨ (e.type = t ∧ t ≠ RegisterType.Undefined) := by
  unfold performWrite at he
  split at he
  · simp only [] at he
    split at he
    · rename_i hcond
      rcases List.mem_append.mp he with h | h
      · exact Or.inl h
      · simp only [List.mem_singleton] at h
        subst h
        exact Or.inr ⟨rfl, hcond.2⟩
    · exact Or.inl he
  · have chain : ∀ (a : WriteAcc) (j : Fin 4),
        (e ∈ a.modified → e ∈ M ∨ (e.type = t ∧ t ≠ RegisterType.Undefined)) →
        e ∈ (writeComp d right f t x a j).modified →
        e ∈ M ∨ (e.type = t ∧ t ≠ RegisterType.Undefined) := by
      intro a j ha hj
      rcases writeComp_modified_mem d right f t x a j e hj with h | h
      · exact ha h
      · exact Or.inr h
    dsimp only [] at he
    split at he
    · simp only [] at he
      split at he
      · rename_i hcond
        rcases List.mem_append.mp he with h | h
        · exact chain _ 3 (chain _ 2 (chain _ 1 (chain _ 0 Or.inl))) h
        · simp only [List.mem_singleton] at h
          subst h
          exact Or.inr ⟨rfl, hcond.2⟩
      · exact chain _ 3 (chain _ 2 (chain _ 1 (chain _ 0 Or.inl))) he
    · exact chain _ 3 (chain _ 2 (chain _ 1 (chain _ 0 Or.inl))) he

end C5Lemmas


lemma resolveDst_fst (st : State) (d : ASMOperand) :
    (resolveDst st d).1 = RegisterType.Temporary ∨
      (resolveDst st d).1 = RegisterType.IndexedTemporary ∨
      (resolveDst st d).1 = RegisterType.Output ∨
      (resolveDst st d).1 = RegisterType.Undefined := by
  unfold resolveDst
  cases d.type <;> simp

lemma setDst_modified_tracked (st : State) (dstoper : ASMOperand) (op : ASMOperation)
    (val : ShaderVariable) (e : RegisterRange)
    (he : e ∈ (st.SetDst dstoper op val).modified) :
    e ∈ st.modified ∨ e.type = RegisterType.Temporary ∨
      e.type = RegisterType.IndexedTemporary ∨ e.type = RegisterType.Output := by
  unfold State.SetDst at he
  split at he
  · exact Or.inl he
  · dsimp only [] at he
    split at he
    · exact Or.inl he
    · rcases performWrite_modified_mem _ _ _ _ _ _ _ _ e he with h | ⟨ht, hne⟩
      · exact Or.inl h
      · rcases resolveDst_fst st dstoper with h4 | h4 | h4 | h4 <;> rw [h4] at ht
        · exact Or.inr (Or.inl ht)
        · exact Or.inr (Or.inr (Or.inl ht))
        · exact Or.inr (Or.inr (Or.inr ht))
        · exact (hne h4).elim


lemma performWrite_identity_mask (F : Nat) (M : List RegisterRange)
    (old val : ShaderVariable) (r : Nat) :
    (performWrite F M old (tempOper r) val false RegisterType.Temporary r).modified =
      M ++ ((if old.value.c0 ≠ val.value.c0 then [⟨RegisterType.Temporary, r, 0⟩] else []) ++
        (if old.value.c1 ≠ val.value.c1 then [⟨RegisterType.Temporary, r, 1⟩] else []) ++
        (if old.value.c2 ≠ val.value.c2 then [⟨RegisterType.Temporary, r, 2⟩] else []) ++
        (if old.value.c3 ≠ val.value.c3 then [⟨RegisterType.Temporary, r, 3⟩] else [])) ∧
    (performWrite F M old (tempOper r) val false RegisterType.Temporary r).v =
      { old with value := val.value } := by
  by_cases h0 : old.value.c0 = val.value.c0 <;>
    by_cases h1 : old.value.c1 = val.value.c1 <;>
      by_cases h2 : old.value.c2 = val.value.c2 <;>
        by_cases h3 : old.value.c3 = val.value.c3 <;>
          simp [performWrite, writeComp, AssignValue, tempOper, V4.getN, V4.setN,
            V4.get, V4.set, h0, h1, h2, h3]


lemma setDst_temp_identity_mask (st : State) (r : Nat) (op : ASMOperation)
    (val : ShaderVariable) (hr : r < st.registers.length) (hsat : op.saturate = false)
    (hfl : OperationFlushing op.operation = false) :
    (st.SetDst (tempOper r) op val).modified =
      st.modified ++
        ((if (st.registers.getD r svZero).value.c0 ≠ val.value.c0 then
            [⟨RegisterType.Temporary, r, 0⟩] else []) ++
          (if (st.registers.getD r svZero).value.c1 ≠ val.value.c1 then
            [⟨RegisterType.Temporary, r, 1⟩] else []) ++
          (if (st.registers.getD r svZero).value.c2 ≠ val.value.c2 then
            [⟨RegisterType.Temporary, r, 2⟩] else []) ++
          (if (st.registers.getD r svZero).value.c3 ≠ val.value.c3 then
            [⟨RegisterType.Temporary, r, 3⟩] else [])) ∧
    (st.SetDst (tempOper r) op val).registers.getD r svZero =
      { st.registers.getD r svZero with value := val.value } := by
  have hres : resolveDst st (tempOper r) = (RegisterType.Temporary, DstLoc.reg r) := by
    simp [resolveDst, tempOper, hr]
  have hSD : st.SetDst (tempOper r) op val =
      { st with
        registers := st.registers.set r (performWrite st.flags st.modified
          (st.registers.getD r svZero) (tempOper r) val false RegisterType.Temporary r).v,
        flags := (performWrite st.flags st.modified (st.registers.getD r svZero)
          (tempOper r) val false RegisterType.Temporary r).flags,
        modified := (performWrite st.flags st.modified (st.registers.getD r svZero)
          (tempOper r) val false RegisterType.Temporary r).modified } := by
    unfold State.SetDst
    rw [if_neg (by simp [tempOper])]
    dsimp only []
    rw [hres]
    dsimp only [State.readLoc, State.writeLoc]
    rw [if_neg (by simp), hsat, hfl]
    simp [tempOper, svZero]
  have hmain := performWrite_identity_mask st.flags st.modified
    (st.registers.getD r svZero) val r
  constructor
  · rw [hSD]
    exact hmain.1
  · rw [hSD]
    dsimp only []
    rw [List.getD_eq_getElem?_getD, List.getElem?_set_self (by simpa using hr)]
    rw [hmain.2]
    rfl


/-- Claim C5: `SetDst` appends a `RegisterRange` exactly for writes that
change the stored 32-bit bit pattern (old word bitwise-unequal to the word
being written) on a tracked register kind: (1) every entry appended has kind
Temporary / IndexedTemporary / Output; (2) an identity-mask temporary write
with no saturate and no flushing records precisely the components whose bits
changed and stores the new value; (3) stepping `mov r0, r1` with
r1 = (1.0, 2.0, 3.0, 4.0) makes r0 equal to r1 with one modified entry per
changed component — 4 entries from a zeroed r0, exactly 1 when r0 already
matched on three of four components. -/
theorem C5_setdst_records_changed_tracked_writes :
    (∀ (st : State) (dstoper : ASMOperand) (op : ASMOperation) (val : ShaderVariable)
      (e : RegisterRange), e ∈ (st.SetDst dstoper op val).modified →
        e ∈ st.modified ∨ e.type = RegisterType.Temporary ∨
          e.type = RegisterType.IndexedTemporary ∨ e.type = RegisterType.Output) ∧
    (∀ (st : State) (r : Nat) (op : ASMOperation) (val : ShaderVariable),
      r < st.registers.length → op.saturate = false →
      OperationFlushing op.operation = false →
      (st.SetDst (tempOper r) op val).modified =
        st.modified ++
          ((if (st.registers.getD r svZero).value.c0 ≠ val.value.c0 then
              [⟨RegisterType.Temporary, r, 0⟩] else []) ++
            (if (st.registers.getD r svZero).value.c1 ≠ val.value.c1 then
              [⟨RegisterType.Temporary, r, 1⟩] else []) ++
            (if (st.registers.getD r svZero).value.c2 ≠ val.value.c2 then
              [⟨RegisterType.Temporary, r, 2⟩] else []) ++
            (if (st.registers.getD r svZero).value.c3 ≠ val.value.c3 then
              [⟨RegisterType.Temporary, r, 3⟩] else [])) ∧
        (st.SetDst (tempOper r) op val).registers.getD r svZero =
          { st.registers.getD r svZero with value := val.value }) ∧
    (((mkState [rz "r0", r1f]).GetNext [movOp] fopsId ⟨[]⟩).1.registers.getD 0
        svZero).value = r1f.value ∧
    ((mkState [rz "r0", r1f]).GetNext [movOp] fopsId ⟨[]⟩).1.modified =
      [⟨RegisterType.Temporary, 0, 0⟩, ⟨RegisterType.Temporary, 0, 1⟩,
        ⟨RegisterType.Temporary, 0, 2⟩, ⟨RegisterType.Temporary, 0, 3⟩] ∧
    (((mkState [⟨"r0", VarType.Float, 1, 4, ⟨0x3F800000, 0x40000000, 0x40400000, 0⟩⟩,
        r1f]).GetNext [movOp] fopsId ⟨[]⟩).1.registers.getD 0 svZero).value =
      r1f.value ∧
    ((mkState [⟨"r0", VarType.Float, 1, 4, ⟨0x3F800000, 0x40000000, 0x40400000, 0⟩⟩,
        r1f]).GetNext [movOp] fopsId ⟨[]⟩).1.modified =
      [⟨RegisterType.Temporary, 0, 3⟩] := by
  refine ⟨setDst_modified_tracked,
    fun st r op val hr hs hf => setDst_temp_identity_mask st r op val hr hs hf,
    by decide, by decide, by decide, by decide⟩

/-- Witness for C5 at a concrete temporary write. -/
theorem C5_setdst_records_changed_tracked_writes_witness :
    (0 : Nat) < (mkState [rz "r0"]).registers.length ∧
    movOp.saturate = false ∧
    OperationFlushing movOp.operation = false ∧
    ((mkState [rz "r0"]).SetDst (tempOper 0) movOp
        (ShaderVariable.mkU "v" 1 0 2 0)).modified =
      (mkState [rz "r0"]).modified ++
        ((if ((mkState [rz "r0"]).registers.getD 0 svZero).value.c0 ≠ 1 then
            [⟨RegisterType.Temporary, 0, 0⟩] else []) ++
          (if ((mkState [rz "r0"]).registers.getD 0 svZero).value.c1 ≠ 0 then
            [⟨RegisterType.Temporary, 0, 1⟩] else []) ++
          (if ((mkState [rz "r0"]).registers.getD 0 svZero).value.c2 ≠ 2 then
            [⟨RegisterType.Temporary, 0, 2⟩] else []) ++
          (if ((mkState [rz "r0"]).registers.getD 0 svZero).value.c3 ≠ 0 then
            [⟨RegisterType.Temporary, 0, 3⟩] else [])) :=
  ⟨by decide, by decide, by decide,
    ((C5_setdst_records_changed_tracked_writes.2.1 (mkState [rz "r0"]) 0 movOp
        (ShaderVariable.mkU "v" 1 0 2 0) (by decide) (by decide) (by decide)).1)⟩

end ShaderDebug
